import Mathlib

/-!
# Verification of the PickYourCourses conversation/session engine

Shallow embedding of the core of the `PickYourCourses` Telegram-bot
repository: the quota gate (`RateLimitService` /
`RateLimitRepository`), the session store (`StateManager`), the event
router (`WebhookHandler`), the draft editor (`ReviewEditHandler`), and
the vote state machine (`VoteRepository` / `ReviewService`).

Timestamps are modelled as integers (milliseconds since the epoch,
exactly the value of JavaScript `Date.getTime()`); calendar days in the
reference timezone (UTC) are modelled as natural numbers
(`now / 86400000`), since the source only ever compares the
`YYYY-MM-DD` prefix of ISO strings for equality, and two timestamps
have the same ISO-date prefix iff they lie in the same UTC day.
-/

namespace PickYourCourses

/-! ## Quota gate: `RateLimitService` and `RateLimitRepository` -/

/-- Milliseconds per UTC day. -/
def dayMs : Nat := 86400000

/-- `RateLimitConfig` from `src/services/RateLimitService.ts`. -/
structure RateLimitConfig where
  dailyLimit : Nat
  totalLimit : Nat
  deriving Repr, DecidableEq

/-- `DEFAULT_RATE_LIMIT_CONFIG`: daily 100, lifetime 3000. -/
def DEFAULT_RATE_LIMIT_CONFIG : RateLimitConfig :=
  { dailyLimit := 100, totalLimit := 3000 }

/-- The stored per-subject counter (`RateLimit` in `src/models`):
`dailyCount`, `totalCount`, `lastResetDate` (the UTC day the daily
count applies to) and `lastMessageTime` (a timestamp). -/
structure RateLimit where
  dailyCount : Nat
  totalCount : Nat
  lastResetDate : Nat
  lastMessageTime : Nat
  deriving Repr, DecidableEq

/-- Denial reason class of `RateLimitResult.reason` (the source stores
a message string; `"Daily message limit ..."` vs
`"Total message limit ..."`). -/
inductive LimitReason where
  | daily
  | lifetime
  deriving Repr, DecidableEq

/-- `RateLimitResult` from `src/services/RateLimitService.ts`. -/
structure RateLimitResult where
  allowed : Bool
  reason : Option LimitReason
  dailyCount : Nat
  totalCount : Nat
  dailyLimit : Nat
  totalLimit : Nat
  resetTime : Option Nat
  deriving Repr, DecidableEq

/-- The UTC calendar day of a timestamp (the `YYYY-MM-DD` prefix of
`new Date().toISOString()`). -/
def isoDay (now : Nat) : Nat := now / dayMs

/-- `RateLimitService.getNextMidnightUTC`: the next UTC midnight
strictly after `now`. -/
def getNextMidnightUTC (now : Nat) : Nat :=
  (now / dayMs + 1) * dayMs

/-- `RateLimitService.checkRateLimit`, given the subject's stored
counter.  If the counter's `lastResetDate` is not today the daily
count is treated as `0`; the daily limit is checked first, then the
lifetime limit.  The check itself never writes. -/
def checkRateLimit (cfg : RateLimitConfig) (now : Nat) (rl : RateLimit) :
    RateLimitResult :=
  let today := isoDay now
  let needsReset := rl.lastResetDate ≠ today
  let currentDailyCount := if needsReset then 0 else rl.dailyCount
  let currentTotalCount := rl.totalCount
  if cfg.dailyLimit ≤ currentDailyCount then
    { allowed := false
      reason := some .daily
      dailyCount := currentDailyCount
      totalCount := currentTotalCount
      dailyLimit := cfg.dailyLimit
      totalLimit := cfg.totalLimit
      resetTime := some (getNextMidnightUTC now) }
  else if cfg.totalLimit ≤ currentTotalCount then
    { allowed := false
      reason := some .lifetime
      dailyCount := currentDailyCount
      totalCount := currentTotalCount
      dailyLimit := cfg.dailyLimit
      totalLimit := cfg.totalLimit
      resetTime := none }
  else
    { allowed := true
      reason := none
      dailyCount := currentDailyCount
      totalCount := currentTotalCount
      dailyLimit := cfg.dailyLimit
      totalLimit := cfg.totalLimit
      resetTime := none }

/-- `RateLimitRepository.getOrCreate`: return the stored counter, or a
fresh zeroed counter stamped with today's date. -/
def getOrCreate (now : Nat) (stored : Option RateLimit) : RateLimit :=
  match stored with
  | some rl => rl
  | none =>
      { dailyCount := 0
        totalCount := 0
        lastResetDate := isoDay now
        lastMessageTime := now }

/-- `RateLimitRepository.incrementCounts`: bump `totalCount` by one
and either bump `dailyCount` (same UTC day) or reset it to one (new
day), stamping `lastResetDate` with today. -/
def incrementCounts (now : Nat) (rl : RateLimit) : RateLimit :=
  let today := isoDay now
  let needsReset := rl.lastResetDate ≠ today
  { dailyCount := if needsReset then 1 else rl.dailyCount + 1
    totalCount := rl.totalCount + 1
    lastResetDate := today
    lastMessageTime := now }

/-- `RateLimitRepository.resetDailyCount`: zero the daily count, stamp
today, leave `totalCount` untouched. -/
def resetDailyCount (now : Nat) (rl : RateLimit) : RateLimit :=
  { dailyCount := 0
    totalCount := rl.totalCount
    lastResetDate := isoDay now
    lastMessageTime := now }

/-- `RateLimitService.checkRateLimit` at the store level: the check
reads (or lazily creates) the counter and returns the result together
with the store after the check.  An existing counter is never written. -/
def checkRateLimitStore (cfg : RateLimitConfig) (now : Nat)
    (stored : Option RateLimit) : RateLimitResult × Option RateLimit :=
  let rl := getOrCreate now stored
  (checkRateLimit cfg now rl, some rl)

/-- Outcome class of `WebhookHandler.handleWebhook` (the HTTP response
is 200 in both cases; `rateLimited` is the branch that sends the
rate-limit error message and returns early). -/
inductive WebhookOutcome where
  | rateLimited
  | processed (routed : Bool)
  deriving Repr, DecidableEq

/-- The quota-relevant skeleton of `WebhookHandler.handleWebhook`:
check the rate limit; if denied, return early with the counters
untouched; if allowed, call `recordMessage` (= `incrementCounts`) and
only then attempt routing (`processUpdate`).  `routed` says whether
routing succeeds; `processUpdate` swallows its own errors, so the
response is `processed` either way and the counters are already
incremented. -/
def handleWebhookQuota (cfg : RateLimitConfig) (now : Nat)
    (stored : Option RateLimit) (routed : Bool) :
    Option RateLimit × WebhookOutcome :=
  let rl := getOrCreate now stored
  let res := checkRateLimit cfg now rl
  if res.allowed then
    (some (incrementCounts now rl), .processed routed)
  else
    (some rl, .rateLimited)

/-! ## Session store: `StateManager` -/

/-- `ConversationState` from `src/models/index.ts`. -/
inductive ConversationState where
  | MAIN_MENU
  | BROWSING_CATEGORIES
  | VIEWING_COURSE
  | POSTING_REVIEW
  | COLLECTING_USER_INFO
  | COLLECTING_NAME
  | COLLECTING_PROMOTION
  | VIEWING_MY_REVIEWS
  | EDITING_REVIEW
  | EDITING_REVIEW_TEXT
  | REQUESTING_COURSE_EDIT
  | COLLECTING_COURSE_EDIT_TEXT
  deriving Repr, DecidableEq

/-- One entry of `StateManager.states`: conversation state, optional
context payload (`data`, of caller-chosen type `σ`), and the
`lastActivity` timestamp. -/
structure SessionData (σ : Type) where
  state : ConversationState
  data : Option σ
  lastActivity : Int
  deriving Repr, DecidableEq

/-- `STATE_TIMEOUT_MINUTES * 60 * 1000`: the 30-minute inactivity
window, in milliseconds. -/
def stateTimeoutMs : Int := 30 * 60 * 1000

/-- `StateManager.setState`: unconditionally overwrite the subject's
entry with the supplied state and context, stamped `now`
(`data: data || null` — an absent payload is stored as `null`). -/
def smSetState {σ : Type} (_prev : Option (SessionData σ)) (now : Int)
    (state : ConversationState) (data : Option σ) : Option (SessionData σ) :=
  some { state := state, data := data, lastActivity := now }

/-- `StateManager.getState`: `null` when no entry; if
`now > lastActivity + 30min`, delete the entry and return `null`
(lazy expiry); otherwise return the state and context.  The first
component is the store after the call, the second the returned value. -/
def smGetState {σ : Type} (now : Int) (s : Option (SessionData σ)) :
    Option (SessionData σ) × Option (ConversationState × Option σ) :=
  match s with
  | none => (none, none)
  | some sd =>
      if sd.lastActivity + stateTimeoutMs < now then
        (none, none)
      else
        (some sd, some (sd.state, sd.data))

/-- `StateManager.isSessionExpired`: `true` when no entry, else
`now > lastActivity + 30min` (strict). -/
def smIsSessionExpired {σ : Type} (now : Int) (s : Option (SessionData σ)) :
    Bool :=
  match s with
  | none => true
  | some sd => decide (sd.lastActivity + stateTimeoutMs < now)

/-- Return value of `StateManager.getSessionTimeoutInfo`. -/
structure TimeoutInfo where
  timeUntilWarning : Int
  timeUntilExpiry : Int
  isExpired : Bool
  needsWarning : Bool
  deriving Repr, DecidableEq

/-- The 5-minute warning lead time, in milliseconds. -/
def warningThresholdMs : Int := 5 * 60 * 1000

/-- `StateManager.getSessionTimeoutInfo`: pure computation from the
stored activity time.  Note `isExpired` tests `timeUntilExpiry <= 0`,
a non-strict comparison of the elapsed time against the window. -/
def smGetSessionTimeoutInfo {σ : Type} (now : Int)
    (s : Option (SessionData σ)) : Option TimeoutInfo :=
  match s with
  | none => none
  | some sd =>
      let timeElapsed := now - sd.lastActivity
      let timeUntilExpiry := stateTimeoutMs - timeElapsed
      let timeUntilWarning := timeUntilExpiry - warningThresholdMs
      some { timeUntilWarning := max 0 timeUntilWarning
             timeUntilExpiry := max 0 timeUntilExpiry
             isExpired := decide (timeUntilExpiry ≤ 0)
             needsWarning :=
               decide (timeUntilExpiry ≤ warningThresholdMs) &&
               decide (0 < timeUntilExpiry) }

/-! ## Event router: free-text interpretation
(`WebhookHandler.handleTextInput`) -/

/-- The context fields of the session payload that
`WebhookHandler.handleTextInput` inspects (`data?.waitingForReviewText`
truthiness). -/
structure TextCtx where
  waitingForReviewText : Bool
  deriving Repr, DecidableEq

/-- Response class chosen by `WebhookHandler.handleTextInput` for a
free-text message. -/
inductive TextResponse where
  /-- `handleMainMenuCallback`: the main menu is (re)displayed. -/
  | mainMenu
  /-- `handleReviewTextInput`: the text is consumed as draft review text. -/
  | reviewTextFlow
  /-- `handleNameInput`: the text is consumed as the profile name. -/
  | nameFlow
  /-- `handlePromotionInput`: the text is consumed as the promotion tag. -/
  | promotionFlow
  /-- `ReviewEditHandler.handleTextInput`: the text edits the review. -/
  | editTextFlow
  /-- `sendUnknownInputMessage`: the "unrecognized input" response. -/
  | unknownInput
  /-- No branch taken: nothing is sent at all. -/
  | noResponse
  deriving Repr, DecidableEq

/-- `WebhookHandler.handleTextInput`: the `getState` result (or
`MAIN_MENU` when absent) selects how free text is interpreted.
`view` is what `stateManager.getState` returned. -/
def handleTextInput (view : Option (ConversationState × Option TextCtx)) :
    TextResponse :=
  let currentState := (view.map Prod.fst).getD .MAIN_MENU
  match currentState with
  | .MAIN_MENU => .mainMenu
  | .POSTING_REVIEW =>
      match view with
      | some (_, some ctx) =>
          if ctx.waitingForReviewText then .reviewTextFlow else .noResponse
      | _ => .noResponse
  | .COLLECTING_NAME => .nameFlow
  | .COLLECTING_PROMOTION => .promotionFlow
  | .EDITING_REVIEW_TEXT => .editTextFlow
  | _ => .unknownInput

/-! ## Vote state machine: `VoteRepository.castVote` and
`ReviewService.voteOnReview` -/

/-- Vote direction (`voteType`). -/
inductive VoteDir where
  | up
  | down
  deriving Repr, DecidableEq

/-- The fields of a stored review that `voteOnReview` inspects. -/
structure ReviewRec where
  userId : String
  isDeleted : Bool
  deriving Repr, DecidableEq

/-- Errors thrown by `ReviewService.voteOnReview` (all of them are
`ReviewValidationError` in the source). -/
inductive VoteErr where
  | notFound
  | deletedReview
  | selfVote
  deriving Repr, DecidableEq

/-- `VoteRepository.castVote`, restricted to one (voter, review) pair:
`existing` is the voter's current vote on the review.  Same direction
deletes the vote and throws `'Vote removed'` (the Boolean flag);
opposite direction updates it; no vote creates one. -/
def castVote (existing : Option VoteDir) (d : VoteDir) :
    Option VoteDir × Bool :=
  match existing with
  | some e => if e = d then (none, true) else (some d, false)
  | none => (some d, false)

/-- `ReviewService.voteOnReview`: look up the review, reject missing,
deleted, and self-authored targets, then delegate to `castVote`,
catching the `'Vote removed'` error (toggle-off is a normal return).
Returns the vote cell after the call and the call's outcome. -/
def voteOnReview (review : Option ReviewRec) (voter : String)
    (existing : Option VoteDir) (d : VoteDir) :
    Option VoteDir × Except VoteErr Unit :=
  match review with
  | none => (existing, .error .notFound)
  | some r =>
      if r.isDeleted then (existing, .error .deletedReview)
      else if r.userId = voter then (existing, .error .selfVote)
      else
        let p := castVote existing d
        -- `castVote` throwing 'Vote removed' (p.2 = true) is caught
        -- and turned into a normal return.
        (p.1, .ok ())

/-! ## Draft editor commit: `ReviewService.validateReviewInput`,
`ReviewService.updateReview` and
`ReviewEditHandler.handleSaveReviewCallback`

Rating values are modelled as rationals so that the source's
`Number.isInteger` check is expressible. -/

/-- A JavaScript numeric value: `none` models a non-number
(`NaN`/`undefined`), which `Number.isInteger` and every `<`/`>`
comparison reject. -/
def JsNum : Type := Option ℚ
  deriving Repr, DecidableEq

/-- `ReviewRatings`: the three rating dimensions. -/
structure ReviewRatings where
  overall : JsNum
  quality : JsNum
  difficulty : JsNum
  deriving Repr, DecidableEq

/-- `ReviewService.isValidRating`:
`Number.isInteger(rating) && rating >= 1 && rating <= 5`. -/
def isValidRating (r : JsNum) : Bool :=
  match r with
  | none => false
  | some q => q.den == 1 && decide (1 ≤ q) && decide (q ≤ 5)

/-- `ReviewService.containsInappropriateContent`: always `false` in
the source (the word-count scaffolding never rejects). -/
def containsInappropriateContent (_text : String) : Bool := false

/-- Errors thrown by `ReviewService` during an update (all are
`ReviewValidationError` in the source). -/
inductive RevErr where
  | invalidOverall
  | invalidQuality
  | invalidDifficulty
  | textTooLong
  | inappropriate
  | reviewNotFound
  | notOwner
  | deletedReview
  deriving Repr, DecidableEq

/-- The errors raised by `validateReviewInput` itself. -/
def RevErr.isInputValidation : RevErr → Bool
  | .invalidOverall | .invalidQuality | .invalidDifficulty
  | .textTooLong | .inappropriate => true
  | _ => false

/-- `ReviewService.validateReviewInput`: each rating must be an
integer 1–5, and non-empty text must be at most 2000 characters
(`input.text && input.text.length > 2000`; a `none`/empty text skips
both text checks by JS truthiness). -/
def validateReviewInput (ratings : ReviewRatings) (text : Option String) :
    Except RevErr Unit :=
  if !isValidRating ratings.overall then .error .invalidOverall
  else if !isValidRating ratings.quality then .error .invalidQuality
  else if !isValidRating ratings.difficulty then .error .invalidDifficulty
  else
    match text with
    | some t =>
        if t ≠ "" && t.length > 2000 then .error .textTooLong
        else if t ≠ "" && containsInappropriateContent t then
          .error .inappropriate
        else .ok ()
    | none => .ok ()

/-- `ReviewService.updateReview`: validate the input first, then check
that the target review exists, belongs to the caller, and is not
soft-deleted.  (The durable write that follows always succeeds from
the caller's perspective in this model.) -/
def updateReview (existing : Option ReviewRec) (uid : String)
    (ratings : ReviewRatings) (text : Option String) : Except RevErr Unit :=
  match validateReviewInput ratings text with
  | .error e => .error e
  | .ok _ =>
      match existing with
      | none => .error .reviewNotFound
      | some r =>
          if r.userId ≠ uid then .error .notOwner
          else if r.isDeleted then .error .deletedReview
          else .ok ()

/-- The ephemeral per-subject draft held in
`ReviewEditHandler.editingReviews`. -/
structure EditDraft where
  ratings : ReviewRatings
  text : Option String
  anonymous : Bool
  deriving Repr, DecidableEq

/-- Response class of `ReviewEditHandler.handleSaveReviewCallback`. -/
inductive SaveOutcome where
  /-- "No review being edited. Please start over." -/
  | noDraftMessage
  /-- "Review Updated Successfully!" -/
  | success
  /-- "Failed to save review changes. Please try again." (catch block). -/
  | errorMessage
  deriving Repr, DecidableEq

/-- `ReviewEditHandler.handleSaveReviewCallback`: commit the subject's
draft through `ReviewService.updateReview`.  On success the draft is
deleted from `editingReviews`; when `updateReview` throws, the catch
block leaves the draft in place.  Returns the draft cell after the
call and the response class. -/
def handleSaveReviewCallback (draft : Option EditDraft)
    (existing : Option ReviewRec) (uid : String) :
    Option EditDraft × SaveOutcome :=
  match draft with
  | none => (none, .noDraftMessage)
  | some d =>
      match updateReview existing uid d.ratings d.text with
      | .ok _ => (none, .success)
      | .error _ => (some d, .errorMessage)

/-! ## Callback token grammar

`String.prototype.split('_')` and `Array.prototype.join('_')` on the
underscore delimiter, modelled on `List Char`. -/

/-- JavaScript `s.split('_')` on the character list of `s`. -/
def splitU : List Char → List (List Char)
  | [] => [[]]
  | c :: rest =>
      if c = '_' then [] :: splitU rest
      else
        match splitU rest with
        | [] => [[c]]
        | h :: t => (c :: h) :: t

/-- JavaScript `parts.join('_')`. -/
def joinU : List (List Char) → List Char
  | [] => []
  | [l] => l
  | l :: ls => l ++ '_' :: joinU ls

/-! ### Pattern matchers

Each registered `RegExp` of `WebhookHandler.initializeRoutes`,
modelled as the characteristic function of the language it accepts
(match = existence of a decomposition; capture-group greediness does
not affect acceptance). -/

/-- `^lit$`. -/
def patExact (lit : String) (s : String) : Bool := s == lit

/-- `^lit(.+)$`: `s = lit ++ m` with `m` non-empty. -/
def patPrefixPlus (lit : String) (s : String) : Bool :=
  lit.data.isPrefixOf s.data && decide (lit.data.length < s.data.length)

/-- `^pre(.+)suf$`: `s = pre ++ m ++ suf` with `m` non-empty. -/
def patMidSuffix (pre suf : String) (s : String) : Bool :=
  pre.data.isPrefixOf s.data &&
  suf.data.isSuffixOf (s.data.drop pre.data.length) &&
  decide (pre.data.length + suf.data.length < s.data.length)

/-- `^pre(\d+)$`: `s = pre ++ d` with `d` non-empty and all digits. -/
def patPrefixDigits (pre : String) (s : String) : Bool :=
  pre.data.isPrefixOf s.data &&
  decide (pre.data.length < s.data.length) &&
  (s.data.drop pre.data.length).all Char.isDigit

/-- `^pre(.+)sep(\d+)$`: `s = pre ++ m ++ sep ++ d` with `m` non-empty
and `d` non-empty all digits. -/
def patMidSepDigits (pre sep : String) (s : String) : Bool :=
  pre.data.isPrefixOf s.data &&
  (let rest := s.data.drop pre.data.length
   (List.range (rest.length + 1)).any fun i =>
     decide (0 < i) &&
     sep.data.isPrefixOf (rest.drop i) &&
     (let d := (rest.drop i).drop sep.data.length
      decide (0 < d.length) && d.all Char.isDigit))

/-- The three rating dimensions of the token grammar. -/
def dimStrings : List String := ["overall", "quality", "difficulty"]

/-- `^edit_rating_(.+)_(overall|quality|difficulty)$`. -/
def patEditRating (s : String) : Bool :=
  dimStrings.any fun dim => patMidSuffix "edit_rating_" ("_" ++ dim) s

/-- `^set_rating_(.+)_(overall|quality|difficulty)_([1-5])$`. -/
def patSetRating (s : String) : Bool :=
  dimStrings.any fun dim =>
    ["1", "2", "3", "4", "5"].any fun k =>
      patMidSuffix "set_rating_" ("_" ++ dim ++ "_" ++ k) s

/-- `^vote_(.+)_(up|down)$`. -/
def patVote (s : String) : Bool :=
  patMidSuffix "vote_" "_up" s || patMidSuffix "vote_" "_down" s

/-- The handler a callback route is bound to. -/
inductive CallbackHandler where
  | help | mainMenu | browseCategories | postReview | category | course
  | back | reviewsPage | viewReviews | vote | courseDetails | coursesPage
  | categoriesPage | reviewCategory | reviewCourse | rating | anonymity
  | confirmReview | cancelReview | editReview | editRating | setRating
  | editText | editAnonymous | saveReview | cancelEdit | skipTextReview
  | addTextReview | editCurrentReview | myReviews | manageReview
  | deleteReview | confirmDelete | writeReview | editAnonymity
  | editReviewText | removeReviewText
  deriving Repr, DecidableEq

/-- `WebhookHandler.initializeRoutes`: the callback dispatch table, in
exact registration order.  (`my_reviews` and `my_reviews_page_(\d+)`
are both bound to `handleMyReviewsCallback`.) -/
def callbackRoutes : List (CallbackHandler × (String → Bool)) :=
  [ (.help, patExact "help")
  , (.mainMenu, patExact "main_menu")
  , (.browseCategories, patExact "browse_categories")
  , (.postReview, patExact "post_review")
  , (.category, patPrefixPlus "category_")
  , (.course, patPrefixPlus "course_")
  , (.back, patPrefixPlus "back_")
  , (.reviewsPage, patMidSepDigits "reviews_" "_page_")
  , (.viewReviews, patPrefixPlus "reviews_")
  , (.vote, patVote)
  , (.courseDetails, patPrefixPlus "course_details_")
  , (.coursesPage, patMidSepDigits "courses_" "_page_")
  , (.categoriesPage, patPrefixDigits "categories_page_")
  , (.reviewCategory, patPrefixPlus "review_category_")
  , (.reviewCourse, patPrefixPlus "review_course_")
  , (.rating, patMidSepDigits "rating_" "_")
  , (.anonymity, fun s =>
      patExact "review_anonymous_yes" s || patExact "review_anonymous_no" s)
  , (.confirmReview, patExact "confirm_review")
  , (.cancelReview, patExact "cancel_review")
  , (.editReview, patPrefixPlus "edit_review_")
  , (.editRating, patEditRating)
  , (.setRating, patSetRating)
  , (.editText, patPrefixPlus "edit_text_")
  , (.editAnonymous, patPrefixPlus "edit_anonymous_")
  , (.saveReview, patPrefixPlus "save_review_")
  , (.cancelEdit, patPrefixPlus "cancel_edit_")
  , (.skipTextReview, patExact "skip_text_review")
  , (.addTextReview, patExact "add_text_review")
  , (.editCurrentReview, patExact "edit_current_review")
  , (.myReviews, patExact "my_reviews")
  , (.myReviews, patPrefixDigits "my_reviews_page_")
  , (.manageReview, patPrefixPlus "manage_review_")
  , (.deleteReview, patPrefixPlus "delete_review_")
  , (.confirmDelete, patPrefixPlus "confirm_delete_")
  , (.writeReview, patPrefixPlus "write_review_")
  , (.editAnonymity, patExact "edit_anonymity")
  , (.editReviewText, patExact "edit_review_text")
  , (.removeReviewText, patExact "remove_review_text")
  ]

/-- `WebhookHandler.handleCallbackQuery` dispatch loop: invoke the
first route whose pattern matches; `none` means the
"unknown action" response (`sendUnknownCallbackMessage`). -/
def dispatchCallback (data : String) : Option CallbackHandler :=
  (callbackRoutes.find? fun r => r.2 data).map Prod.fst

/-! ## `ReviewEditHandler.handleSetRatingCallback`: right-to-left
token parsing -/

/-- Numeric value of a digit run. -/
def digitsToNat (ds : List Char) : Nat :=
  ds.foldl (fun acc c => 10 * acc + (c.toNat - 48)) 0

/-- JavaScript `parseInt(s)` (radix 10): optional sign followed by the
longest leading digit run; `none` models `NaN`. -/
def jsParseInt (l : List Char) : Option Int :=
  let p : Int × List Char :=
    match l with
    | '-' :: r => (-1, r)
    | '+' :: r => (1, r)
    | _ => (1, l)
  let ds := p.2.takeWhile Char.isDigit
  if ds.isEmpty then none else some (p.1 * (digitsToNat ds : Int))

/-- The parsing phase of
`ReviewEditHandler.handleSetRatingCallback`: split on `_`, require at
least 5 parts, take the value from the last part
(`parseInt(parts[parts.length - 1])`), the rating type from the
second-to-last part, and the review id from
`parts.slice(2, -2).join('_')`. -/
def parseSetRating (data : List Char) :
    Option (List Char × List Char × Option Int) :=
  if (splitU data).length < 5 then none
  else
    some (joinU (((splitU data).drop 2).dropLast.dropLast),
          ((splitU data).dropLast.getLast?).getD [],
          jsParseInt ((splitU data).getLast?.getD []))

/-- The assignment `review.ratings[ratingType] = ratingValue`: a key
other than the three dimensions leaves all three dimensions untouched
(it would create an unrelated property). -/
def setRatingField (r : ReviewRatings) (ty : List Char) (v : Option Int) :
    ReviewRatings :=
  let q : JsNum := v.map fun n => (n : ℚ)
  if ty = "overall".data then { r with overall := q }
  else if ty = "quality".data then { r with quality := q }
  else if ty = "difficulty".data then { r with difficulty := q }
  else r

/-- Outcome class of `ReviewEditHandler.handleSetRatingCallback`. -/
inductive SetRatingOutcome where
  /-- The catch block: "Failed to update rating. Please try again." -/
  | error
  /-- "No review being edited. Please start over." -/
  | noDraftMessage
  /-- The draft was mutated and the edit interface redisplayed. -/
  | updated
  deriving Repr, DecidableEq

/-- `ReviewEditHandler.handleSetRatingCallback`: parse the token
(throwing on fewer than 5 parts), throw if
`ratingValue < 1 || ratingValue > 5` (`NaN` compares false on both, so
it is not caught here), then look up and mutate the subject's draft.
Returns the draft cell after the call and the outcome class. -/
def handleSetRating (data : List Char) (draft : Option EditDraft) :
    Option EditDraft × SetRatingOutcome :=
  match parseSetRating data with
  | none => (draft, .error)
  | some (_rid, ty, v) =>
      if (match v with
          | none => false
          | some n => decide (n < 1) || decide (5 < n)) then
        (draft, .error)
      else
        match draft with
        | none => (none, .noDraftMessage)
        | some d =>
            (some { d with ratings := setRatingField d.ratings ty v },
             .updated)

/-- The digit character of `k`. -/
def digitChar (k : Nat) : Char := Char.ofNat (48 + k)

/-- `ReviewEditHandler.createRatingSelectionKeyboard` button token:
`set_rating_${reviewId}_${ratingType}_${k}`. -/
def mkSetRatingToken (rid : List Char) (dim : String) (k : Nat) :
    List Char :=
  "set_rating_".data ++ rid ++ '_' :: (dim.data ++ '_' :: [digitChar k])

/-! ## Auxiliary lemmas on the underscore split -/

theorem splitU_ne_nil (l : List Char) : splitU l ≠ [] := by
  cases l with
  | nil => simp [splitU]
  | cons c rest =>
      simp only [splitU]
      split
      · simp
      · split <;> simp

/-- Splitting a sep-free list yields the single chunk. -/
theorem splitU_no_sep {l : List Char} (h : '_' ∉ l) : splitU l = [l] := by
  induction l with
  | nil => rfl
  | cons c rest ih =>
      simp only [List.mem_cons, not_or] at h
      simp only [splitU, if_neg (Ne.symm h.1), ih h.2]

/-- Peeling a sep off the front when the first chunk is sep-free. -/
theorem splitU_append_cons {l₁ : List Char} (l₂ : List Char)
    (h : '_' ∉ l₁) : splitU (l₁ ++ '_' :: l₂) = l₁ :: splitU l₂ := by
  induction l₁ with
  | nil => simp [splitU]
  | cons c rest ih =>
      simp only [List.mem_cons, not_or] at h
      rw [List.cons_append]
      simp only [splitU, List.append_eq]
      rw [ih h.2]
      simp [if_neg (Ne.symm h.1)]

/-- Peeling a sep off the back when the final chunk is sep-free. -/
theorem splitU_append_cons_right {l₂ : List Char} (l₁ : List Char)
    (h : '_' ∉ l₂) : splitU (l₁ ++ '_' :: l₂) = splitU l₁ ++ [l₂] := by
  induction l₁ with
  | nil => simp [splitU, splitU_no_sep h]
  | cons c rest ih =>
      rw [List.cons_append]
      simp only [splitU, List.append_eq]
      rw [ih]
      by_cases hc : c = '_'
      · simp [hc]
      · simp only [if_neg hc]
        obtain ⟨h', t', ht⟩ : ∃ h' t', splitU rest = h' :: t' := by
          cases hr : splitU rest with
          | nil => exact absurd hr (splitU_ne_nil rest)
          | cons a b => exact ⟨a, b, rfl⟩
        simp [ht]

/-- `join('_')` undoes `split('_')`. -/
theorem joinU_splitU (l : List Char) : joinU (splitU l) = l := by
  induction l with
  | nil => rfl
  | cons c rest ih =>
      simp only [splitU]
      by_cases hc : c = '_'
      · subst hc
        simp only [if_pos rfl]
        cases hr : splitU rest with
        | nil => exact absurd hr (splitU_ne_nil rest)
        | cons h t =>
            rw [hr] at ih
            simp [joinU, ← ih, hr]
      · simp only [if_neg hc]
        cases hr : splitU rest with
        | nil => exact absurd hr (splitU_ne_nil rest)
        | cons h t =>
            rw [hr] at ih
            cases t with
            | nil => simp_all [joinU]
            | cons h' t' => simp_all [joinU]

/-! ## Claim theorems -/

/-- **C2** (counterexample).  An event that passes the quota gate but
whose routing does not succeed still has both counters incremented:
starting from the stored counter (5 daily, 10 lifetime, today), the
webhook pipeline with failed routing leaves the counter at
(6 daily, 11 lifetime), not unchanged as the claim states. -/
theorem c2_counterexample :
    (handleWebhookQuota DEFAULT_RATE_LIMIT_CONFIG 5
        (some ⟨5, 10, 0, 0⟩) false) =
      (some ⟨6, 11, 0, 5⟩, .processed false) ∧
    some (⟨6, 11, 0, 5⟩ : RateLimit) ≠ some (⟨5, 10, 0, 0⟩ : RateLimit) := by
  decide

/-- **C2** (amended).  The quota counters are incremented via
`recordMessage` as soon as the quota gate allows the event and before
routing is attempted: an event rejected by the gate leaves the stored
counter unchanged, an allowed event increments both counters, and the
resulting counter state is identical whether or not routing
subsequently succeeds. -/
theorem c2_increment_before_routing (cfg : RateLimitConfig) (now : Nat)
    (rl : RateLimit) (routed : Bool) :
    ((checkRateLimit cfg now rl).allowed = false →
       handleWebhookQuota cfg now (some rl) routed =
         (some rl, .rateLimited)) ∧
    ((checkRateLimit cfg now rl).allowed = true →
       handleWebhookQuota cfg now (some rl) routed =
         (some (incrementCounts now rl), .processed routed)) ∧
    (handleWebhookQuota cfg now (some rl) true).1 =
      (handleWebhookQuota cfg now (some rl) false).1 := by
  refine ⟨fun h => ?_, fun h => ?_, ?_⟩
  · simp [handleWebhookQuota, getOrCreate, h]
  · simp [handleWebhookQuota, getOrCreate, h]
  · by_cases h : (checkRateLimit cfg now rl).allowed <;>
      simp [handleWebhookQuota, getOrCreate, h]

theorem c2_increment_before_routing_witness :
    handleWebhookQuota DEFAULT_RATE_LIMIT_CONFIG 5
        (some ⟨5, 10, 0, 0⟩) false =
      (some (incrementCounts 5 ⟨5, 10, 0, 0⟩), .processed false) ∧
    handleWebhookQuota DEFAULT_RATE_LIMIT_CONFIG 7
        (some ⟨100, 500, 0, 0⟩) true =
      (some ⟨100, 500, 0, 0⟩, .rateLimited) :=
  ⟨(c2_increment_before_routing DEFAULT_RATE_LIMIT_CONFIG 5
      ⟨5, 10, 0, 0⟩ false).2.1 (by decide),
   (c2_increment_before_routing DEFAULT_RATE_LIMIT_CONFIG 7
      ⟨100, 500, 0, 0⟩ true).1 (by decide)⟩

/-- **C3.**  A stored counter at (or above) the daily limit with
today's window date (and lifetime count below the lifetime limit) is
denied with the daily reason and a reset time equal to the next UTC
midnight; once the stored window date differs from today the effective
daily count is treated as zero and the subject is allowed again; and
the check writes nothing to an existing stored counter. -/
theorem c3_daily_limit_denial_and_rollover (cfg : RateLimitConfig)
    (now : Nat) (rl : RateLimit)
    (hdaily : cfg.dailyLimit ≤ rl.dailyCount)
    (htoday : rl.lastResetDate = isoDay now)
    (_hlife : rl.totalCount < cfg.totalLimit) :
    checkRateLimit cfg now rl =
      { allowed := false
        reason := some .daily
        dailyCount := rl.dailyCount
        totalCount := rl.totalCount
        dailyLimit := cfg.dailyLimit
        totalLimit := cfg.totalLimit
        resetTime := some (getNextMidnightUTC now) } ∧
    (∀ rl' : RateLimit, rl'.lastResetDate ≠ isoDay now →
       rl'.totalCount < cfg.totalLimit → 0 < cfg.dailyLimit →
       (checkRateLimit cfg now rl').allowed = true) ∧
    (checkRateLimitStore cfg now (some rl)).2 = some rl := by
  refine ⟨?_, fun rl' hdate hlife' hpos => ?_, rfl⟩
  · simp [checkRateLimit, htoday, hdaily]
  · simp [checkRateLimit, hdate, Nat.not_le.mpr hpos, Nat.not_le.mpr hlife']

theorem c3_daily_limit_denial_and_rollover_witness :
    checkRateLimit DEFAULT_RATE_LIMIT_CONFIG 5 ⟨100, 5, 0, 0⟩ =
      { allowed := false
        reason := some .daily
        dailyCount := 100
        totalCount := 5
        dailyLimit := 100
        totalLimit := 3000
        resetTime := some (getNextMidnightUTC 5) } ∧
    (checkRateLimit DEFAULT_RATE_LIMIT_CONFIG (86400000 + 5)
      ⟨100, 5, 0, 0⟩).allowed = true ∧
    (checkRateLimitStore DEFAULT_RATE_LIMIT_CONFIG 5
      (some ⟨100, 5, 0, 0⟩)).2 = some ⟨100, 5, 0, 0⟩ := by
  obtain ⟨h1, h2, h3⟩ := c3_daily_limit_denial_and_rollover
    DEFAULT_RATE_LIMIT_CONFIG 5 ⟨100, 5, 0, 0⟩ (by decide) (by decide)
    (by decide)
  obtain ⟨h1', h2', h3'⟩ := c3_daily_limit_denial_and_rollover
    DEFAULT_RATE_LIMIT_CONFIG (86400000 + 5) ⟨100, 5, 1, 0⟩
    (by decide) (by decide) (by decide)
  exact ⟨h1, h2' ⟨100, 5, 0, 0⟩ (by decide) (by decide) (by decide), h3⟩

/-- **C4.**  The lifetime counter is monotonically non-decreasing
under every quota operation — `incrementCounts` increases it by
exactly one and `resetDailyCount` leaves it unchanged — and once it
has reached the lifetime limit, the check denies at every later
instant, regardless of window rollover. -/
theorem c4_lifetime_monotone_and_permanent (cfg : RateLimitConfig)
    (now now' : Nat) (rl : RateLimit) :
    (incrementCounts now rl).totalCount = rl.totalCount + 1 ∧
    (resetDailyCount now rl).totalCount = rl.totalCount ∧
    (cfg.totalLimit ≤ rl.totalCount →
       (checkRateLimit cfg now' rl).allowed = false) := by
  refine ⟨rfl, rfl, fun h => ?_⟩
  simp only [checkRateLimit]
  split <;> split <;> simp_all

theorem c4_lifetime_monotone_and_permanent_witness :
    (incrementCounts 5 ⟨5, 3000, 0, 0⟩).totalCount = 3001 ∧
    (resetDailyCount 5 ⟨5, 3000, 0, 0⟩).totalCount = 3000 ∧
    (checkRateLimit DEFAULT_RATE_LIMIT_CONFIG (86400000 * 7)
      ⟨5, 3000, 0, 0⟩).allowed = false := by
  obtain ⟨h1, h2, h3⟩ := c4_lifetime_monotone_and_permanent
    DEFAULT_RATE_LIMIT_CONFIG 5 (86400000 * 7) ⟨5, 3000, 0, 0⟩
  exact ⟨h1, h2, h3 (by decide)⟩

/-- **C5** (counterexample).  A free-text event from a subject with no
session — and likewise one in the main-menu state — does not yield the
"unrecognized input" response: the router re-displays the main menu
instead. -/
theorem c5_counterexample :
    handleTextInput none = .mainMenu ∧
    handleTextInput (some (.MAIN_MENU, none)) = .mainMenu ∧
    TextResponse.mainMenu ≠ TextResponse.unknownInput := by
  decide

/-- **C5** (amended).  Free text from a subject whose state is outside
the text-accepting set (POSTING_REVIEW awaiting review text,
COLLECTING_NAME, COLLECTING_PROMOTION, EDITING_REVIEW_TEXT) yields the
"unrecognized input" response, except that a subject in the main-menu
state or with no session gets the main menu re-displayed, and a
subject in POSTING_REVIEW not awaiting review text gets no response at
all. -/
theorem c5_text_outside_accepting_states (st : ConversationState)
    (ctx : Option TextCtx) :
    (st ∉ [ConversationState.MAIN_MENU, ConversationState.POSTING_REVIEW,
           ConversationState.COLLECTING_NAME,
           ConversationState.COLLECTING_PROMOTION,
           ConversationState.EDITING_REVIEW_TEXT] →
       handleTextInput (some (st, ctx)) = .unknownInput) ∧
    handleTextInput none = .mainMenu ∧
    handleTextInput (some (.MAIN_MENU, ctx)) = .mainMenu ∧
    handleTextInput (some (.POSTING_REVIEW, none)) = .noResponse ∧
    (∀ c : TextCtx, c.waitingForReviewText = false →
       handleTextInput (some (.POSTING_REVIEW, some c)) = .noResponse) := by
  refine ⟨fun hst => ?_, rfl, rfl, rfl, fun c hc => ?_⟩
  · cases st <;> simp_all [handleTextInput]
  · simp [handleTextInput, hc]

theorem c5_text_outside_accepting_states_witness :
    handleTextInput (some (.BROWSING_CATEGORIES, none)) = .unknownInput ∧
    handleTextInput (some (.POSTING_REVIEW,
      some { waitingForReviewText := false })) = .noResponse :=
  ⟨(c5_text_outside_accepting_states .BROWSING_CATEGORIES none).1
     (by decide),
   (c5_text_outside_accepting_states .POSTING_REVIEW none).2.2.2.2
     { waitingForReviewText := false } rfl⟩

/-- **C6.**  For a voter distinct from the author of an existing,
non-deleted review: casting the same direction as the existing vote
removes the vote and `voteOnReview` returns normally (the repository's
`'Vote removed'` throw is caught); casting the opposite direction
replaces the vote's direction; and a vote on one's own review is
rejected with a validation error, leaving the vote cell untouched. -/
theorem c6_vote_toggle_replace_and_self_reject (r : ReviewRec)
    (voter : String) (d d' : VoteDir) (existing : Option VoteDir)
    (hdel : r.isDeleted = false) :
    (r.userId ≠ voter →
       voteOnReview (some r) voter (some d) d = (none, .ok ())) ∧
    (r.userId ≠ voter → d' ≠ d →
       voteOnReview (some r) voter (some d') d = (some d, .ok ())) ∧
    (r.userId = voter →
       voteOnReview (some r) voter existing d =
         (existing, .error .selfVote)) := by
  refine ⟨fun hne => ?_, fun hne hd => ?_, fun heq => ?_⟩
  · simp [voteOnReview, castVote, hdel, hne]
  · simp [voteOnReview, castVote, hdel, hne, hd]
  · simp [voteOnReview, hdel, heq]

theorem c6_vote_toggle_replace_and_self_reject_witness :
    voteOnReview (some ⟨"alice", false⟩) "bob" (some .up) .up =
      (none, .ok ()) ∧
    voteOnReview (some ⟨"alice", false⟩) "bob" (some .up) .down =
      (some .down, .ok ()) ∧
    voteOnReview (some ⟨"bob", false⟩) "bob" (some .up) .up =
      (some .up, .error .selfVote) := by
  obtain ⟨h1, h2, _⟩ := c6_vote_toggle_replace_and_self_reject
    ⟨"alice", false⟩ "bob" .up .up (some .up) rfl
  obtain ⟨_, h2', _⟩ := c6_vote_toggle_replace_and_self_reject
    ⟨"alice", false⟩ "bob" .down .up (some .up) rfl
  obtain ⟨_, _, h3⟩ := c6_vote_toggle_replace_and_self_reject
    ⟨"bob", false⟩ "bob" .up .up (some .up) rfl
  exact ⟨h1 (by decide), h2' (by decide) (by decide), h3 rfl⟩

/-- **C7.**  Committing an edited review draft whose ratings include a
value that is not an integer in 1–5, or whose text exceeds 2000
characters, fails with a validation error and retains the subject's
draft unchanged for retry; a successful commit discards the draft. -/
theorem c7_commit_validation_and_draft_retention (d : EditDraft)
    (existing : Option ReviewRec) (uid : String) :
    ((isValidRating d.ratings.overall = false ∨
      isValidRating d.ratings.quality = false ∨
      isValidRating d.ratings.difficulty = false ∨
      (∃ t, d.text = some t ∧ 2000 < t.length)) →
       handleSaveReviewCallback (some d) existing uid =
         (some d, .errorMessage) ∧
       ∃ e, updateReview existing uid d.ratings d.text = .error e ∧
         e.isInputValidation = true) ∧
    (updateReview existing uid d.ratings d.text = .ok () →
       handleSaveReviewCallback (some d) existing uid = (none, .success)) := by
  constructor
  · intro hbad
    have hval : ∃ e, validateReviewInput d.ratings d.text = .error e ∧
        e.isInputValidation = true := by
      rcases hbad with h | h | h | ⟨t, ht, hlen⟩
      · exact ⟨.invalidOverall, by simp [validateReviewInput, h], rfl⟩
      · by_cases ho : isValidRating d.ratings.overall
        · exact ⟨.invalidQuality, by simp [validateReviewInput, ho, h], rfl⟩
        · exact ⟨.invalidOverall, by simp [validateReviewInput, ho], rfl⟩
      · by_cases ho : isValidRating d.ratings.overall
        · by_cases hq : isValidRating d.ratings.quality
          · exact ⟨.invalidDifficulty,
              by simp [validateReviewInput, ho, hq, h], rfl⟩
          · exact ⟨.invalidQuality, by simp [validateReviewInput, ho, hq], rfl⟩
        · exact ⟨.invalidOverall, by simp [validateReviewInput, ho], rfl⟩
      · by_cases ho : isValidRating d.ratings.overall
        · by_cases hq : isValidRating d.ratings.quality
          · by_cases hd : isValidRating d.ratings.difficulty
            · refine ⟨.textTooLong, ?_, rfl⟩
              have hne : t ≠ "" := by
                intro he
                rw [he] at hlen
                simp at hlen
              simp [validateReviewInput, ho, hq, hd, ht, hne, hlen]
            · exact ⟨.invalidDifficulty,
                by simp [validateReviewInput, ho, hq, hd], rfl⟩
          · exact ⟨.invalidQuality, by simp [validateReviewInput, ho, hq], rfl⟩
        · exact ⟨.invalidOverall, by simp [validateReviewInput, ho], rfl⟩
    obtain ⟨e, he, hv⟩ := hval
    have hupd : updateReview existing uid d.ratings d.text = .error e := by
      simp [updateReview, he]
    refine ⟨?_, e, hupd, hv⟩
    simp [handleSaveReviewCallback, hupd]
  · intro hok
    simp [handleSaveReviewCallback, hok]

theorem c7_commit_validation_and_draft_retention_witness :
    handleSaveReviewCallback
      (some ⟨⟨some 6, some 3, some 3⟩, none, false⟩)
      (some ⟨"u1", false⟩) "u1" =
      (some ⟨⟨some 6, some 3, some 3⟩, none, false⟩, .errorMessage) ∧
    handleSaveReviewCallback
      (some ⟨⟨some 4, some 3, some 3⟩, some "great", false⟩)
      (some ⟨"u1", false⟩) "u1" = (none, .success) := by
  obtain ⟨h1, _⟩ := c7_commit_validation_and_draft_retention
    ⟨⟨some 6, some 3, some 3⟩, none, false⟩ (some ⟨"u1", false⟩) "u1"
  obtain ⟨_, h2⟩ := c7_commit_validation_and_draft_retention
    ⟨⟨some 4, some 3, some 3⟩, some "great", false⟩ (some ⟨"u1", false⟩) "u1"
  exact ⟨(h1 (Or.inl (by decide))).1, h2 (by rfl)⟩

/-- **C8.**  When the elapsed inactivity strictly exceeds the
30-minute window, `getState` returns absent and deletes the stored
session, and a subsequent `setState` — whatever the store then
contains — produces a fresh session whose context is exactly the newly
supplied payload, never the old session's context. -/
theorem c8_expired_getstate_and_fresh_setstate {σ : Type}
    (sd : SessionData σ) (now now' : Int) (st' : ConversationState)
    (d' : Option σ) (h : sd.lastActivity + stateTimeoutMs < now) :
    smGetState now (some sd) = (none, none) ∧
    (∀ prev : Option (SessionData σ),
       smSetState prev now' st' d' =
         some { state := st', data := d', lastActivity := now' }) := by
  refine ⟨?_, fun prev => rfl⟩
  simp [smGetState, h]

theorem c8_expired_getstate_and_fresh_setstate_witness :
    smGetState (σ := Nat) 1800001
        (some { state := .BROWSING_CATEGORIES, data := some 7,
                lastActivity := 0 }) = (none, none) ∧
    smSetState (σ := Nat)
        (some { state := .BROWSING_CATEGORIES, data := some 7,
                lastActivity := 0 }) 1800002 .VIEWING_COURSE (some 9) =
      some { state := .VIEWING_COURSE, data := some 9,
             lastActivity := 1800002 } := by
  obtain ⟨h1, h2⟩ := c8_expired_getstate_and_fresh_setstate
    (σ := Nat)
    { state := .BROWSING_CATEGORIES, data := some 7, lastActivity := 0 }
    1800001 1800002 .VIEWING_COURSE (some 9) (by decide)
  exact ⟨h1, h2 _⟩

/-- **C10.**  At the exact boundary where the elapsed inactivity
equals the 30-minute window, `getSessionTimeoutInfo` reports the
session expired (`timeUntilExpiry <= 0`), while at the same instant
`getState` still returns the session and `isSessionExpired` still
reports it live (both test strictly greater than the window). -/
theorem c10_boundary_expiry_disagreement {σ : Type}
    (sd : SessionData σ) (now : Int)
    (h : now = sd.lastActivity + stateTimeoutMs) :
    (smGetSessionTimeoutInfo now (some sd)).map TimeoutInfo.isExpired =
      some true ∧
    smGetState now (some sd) = (some sd, some (sd.state, sd.data)) ∧
    smIsSessionExpired now (some sd) = false := by
  subst h
  refine ⟨?_, ?_, ?_⟩
  · simp [smGetSessionTimeoutInfo]
  · simp [smGetState]
  · simp [smIsSessionExpired]

theorem c10_boundary_expiry_disagreement_witness :
    (smGetSessionTimeoutInfo (σ := Nat) 1800000
        (some { state := .MAIN_MENU, data := none, lastActivity := 0 })).map
        TimeoutInfo.isExpired = some true ∧
    smGetState (σ := Nat) 1800000
        (some { state := .MAIN_MENU, data := none, lastActivity := 0 }) =
      (some { state := .MAIN_MENU, data := none, lastActivity := 0 },
       some (.MAIN_MENU, none)) ∧
    smIsSessionExpired (σ := Nat) 1800000
        (some { state := .MAIN_MENU, data := none, lastActivity := 0 }) =
      false :=
  c10_boundary_expiry_disagreement
    { state := .MAIN_MENU, data := none, lastActivity := 0 } 1800000
    (by decide)

/-- **C1** (code evidence).  The token `course_details_MAA101` matches
both the specific pattern `^course_details_(.+)$` and the
prefix-sharing generic pattern `^course_(.+)$`, yet the dispatcher
invokes the handler bound to the generic pattern, because
`^course_(.+)$` is registered *before* `^course_details_(.+)$` in
`initializeRoutes`; the course-details route is unreachable. -/
theorem c1_course_details_shadowed :
    patPrefixPlus "course_details_" "course_details_MAA101" = true ∧
    patPrefixPlus "course_" "course_details_MAA101" = true ∧
    dispatchCallback "course_details_MAA101" = some .course ∧
    CallbackHandler.course ≠ CallbackHandler.courseDetails := by
  decide

/-! ### Splitting and re-parsing a `set_rating` token -/

/-- Splitting a keyboard-shaped `set_rating` token: the review-id
chunks sit between the two fixed leading chunks and the two fixed
trailing chunks. -/
theorem splitU_setRatingToken (rid dimL : List Char) (g : Char)
    (hdim : '_' ∉ dimL) (hg : g ≠ '_') :
    splitU ("set_rating_".data ++ rid ++ '_' :: (dimL ++ '_' :: [g])) =
      "set".data :: "rating".data :: (splitU rid ++ [dimL, [g]]) := by
  have h1 : "set_rating_".data ++ rid ++ '_' :: (dimL ++ '_' :: [g]) =
      "set".data ++ '_' ::
        ("rating".data ++ '_' :: (rid ++ '_' :: (dimL ++ '_' :: [g]))) := rfl
  have h2 : rid ++ '_' :: (dimL ++ '_' :: [g]) =
      (rid ++ '_' :: dimL) ++ '_' :: [g] := by simp
  have hg' : '_' ∉ [g] := by simp [Ne.symm hg]
  rw [h1, splitU_append_cons _ (by decide), splitU_append_cons _ (by decide),
      h2, splitU_append_cons_right _ hg', splitU_append_cons_right _ hdim]
  simp

/-- Right-to-left extraction on a `set_rating` token recovers the
review id, the dimension chunk and the value chunk exactly. -/
theorem parseSetRating_token (rid dimL : List Char) (g : Char)
    (hdim : '_' ∉ dimL) (hg : g ≠ '_') :
    parseSetRating ("set_rating_".data ++ rid ++ '_' :: (dimL ++ '_' :: [g])) =
      some (rid, dimL, jsParseInt [g]) := by
  have hsplit := splitU_setRatingToken rid dimL g hdim hg
  obtain ⟨l0, L', hL⟩ : ∃ l0 L', splitU rid = l0 :: L' := by
    cases hr : splitU rid with
    | nil => exact absurd hr (splitU_ne_nil rid)
    | cons a b => exact ⟨a, b, rfl⟩
  rw [parseSetRating, hsplit, hL]
  have hlen : ¬ ("set".data :: "rating".data ::
      ((l0 :: L') ++ [dimL, [g]])).length < 5 := by
    simp [List.length_append]
  rw [if_neg hlen]
  congr 1
  have e1 : "set".data :: "rating".data :: ((l0 :: L') ++ [dimL, [g]]) =
      ("set".data :: "rating".data :: ((l0 :: L') ++ [dimL])) ++ [[g]] := by
    simp
  have e2 : "set".data :: "rating".data :: ((l0 :: L') ++ [dimL]) =
      ("set".data :: "rating".data :: (l0 :: L')) ++ [dimL] := by
    simp
  refine Prod.ext ?_ (Prod.ext ?_ ?_)
  · show joinU (((("set".data :: "rating".data ::
        ((l0 :: L') ++ [dimL, [g]])).drop 2).dropLast).dropLast) = rid
    have e3 : ("set".data :: "rating".data ::
        ((l0 :: L') ++ [dimL, [g]])).drop 2 = (l0 :: L') ++ [dimL, [g]] := rfl
    rw [e3]
    have e4 : (l0 :: L') ++ [dimL, [g]] =
        ((l0 :: L') ++ [dimL]) ++ [[g]] := by simp
    rw [e4, List.dropLast_concat, List.dropLast_concat, ← hL, joinU_splitU]
  · show ((("set".data :: "rating".data ::
        ((l0 :: L') ++ [dimL, [g]])).dropLast).getLast?).getD [] = dimL
    rw [e1, List.dropLast_concat, e2, List.getLast?_concat]
    rfl
  · show jsParseInt ((("set".data :: "rating".data ::
        ((l0 :: L') ++ [dimL, [g]])).getLast?).getD []) = jsParseInt [g]
    rw [e1, List.getLast?_concat]
    rfl

/-- `parseInt` of a single digit character in range. -/
theorem jsParseInt_digitChar {k : Nat} (h1 : 1 ≤ k) (h5 : k ≤ 5) :
    jsParseInt [digitChar k] = some (k : Int) := by
  interval_cases k <;> decide

/-- `parseSetRating` applied to a keyboard-produced token. -/
theorem parseSetRating_mkToken (rid : List Char) (dim : String) (k : Nat)
    (hdim : '_' ∉ dim.data) (hg : digitChar k ≠ '_') :
    parseSetRating (mkSetRatingToken rid dim k) =
      some (rid, dim.data, jsParseInt [digitChar k]) :=
  parseSetRating_token rid dim.data (digitChar k) hdim hg

/-- **C9.**  For every review id (which may itself contain the `_`
delimiter), every dimension in {overall, quality, difficulty} and
every rating value 1–5, parsing the keyboard token
`set_rating_<recordId>_<dimension>_<value>` recovers exactly that
review id, dimension and value (the fixed-vocabulary suffixes are
taken from the right); and a token whose parsed value lies outside
1–5 is rejected by the range guard without the draft being mutated. -/
theorem c9_set_rating_roundtrip_and_range_guard :
    (∀ (rid : List Char) (dim : String) (k : Nat), dim ∈ dimStrings →
       1 ≤ k → k ≤ 5 →
       parseSetRating (mkSetRatingToken rid dim k) =
         some (rid, dim.data, some (k : Int))) ∧
    (∀ (data : List Char) (draft : Option EditDraft) (rid ty : List Char)
       (n : Int),
       parseSetRating data = some (rid, ty, some n) → (n < 1 ∨ 5 < n) →
       handleSetRating data draft = (draft, .error)) := by
  constructor
  · intro rid dim k hdim hk1 hk5
    have hg : digitChar k ≠ '_' := by interval_cases k <;> decide
    have hd : '_' ∉ dim.data := by
      fin_cases hdim <;> decide
    rw [parseSetRating_mkToken rid dim k hd hg, jsParseInt_digitChar hk1 hk5]
  · intro data draft rid ty n hparse hn
    rcases hn with h | h <;> simp [handleSetRating, hparse, h]

theorem c9_set_rating_roundtrip_and_range_guard_witness :
    parseSetRating (mkSetRatingToken "review_1699_ab12".data "overall" 4) =
      some ("review_1699_ab12".data, "overall".data, some 4) ∧
    handleSetRating "set_rating_X_quality_9".data
        (some ⟨⟨some 3, some 3, some 3⟩, none, false⟩) =
      (some ⟨⟨some 3, some 3, some 3⟩, none, false⟩, .error) :=
  ⟨(c9_set_rating_roundtrip_and_range_guard).1 "review_1699_ab12".data
     "overall" 4 (by decide) (by decide) (by decide),
   (c9_set_rating_roundtrip_and_range_guard).2 "set_rating_X_quality_9".data
     (some ⟨⟨some 3, some 3, some 3⟩, none, false⟩) "X".data "quality".data 9
     (by decide) (Or.inr (by decide))⟩

end PickYourCourses
